import Mathlib

/-!
Shallow embedding of the LearnBox authentication backend
(`src/backend/accounts/`): the user model (`models.py`), the
verification-token utilities (`utils.py`) and the registration and login
serializers together with their views (`serializers.py`, `views.py`).

Time is modelled as a natural number of seconds.  Randomness (the
6-digit code and the reset uuid) is modelled by an explicit `rand`
parameter.  The mail transport is modelled by a boolean `mailOk`
parameter: `false` means `send_mail` raises, `true` means it returns.

The repository references two Django model classes,
`EmailVerificationToken` and `PasswordResetToken`, whose declarations
(fields, defaults and the `is_valid` method) are not under `src/`; they
are modelled from the spec where so marked.
-/

namespace LearnBox

/-- The `User` model of `models.py` (a Django `AbstractUser` with a unique
`email` and an optional `firebase_uid`).  The `password` field stands for
the stored password hash; hashing is abstracted to the identity, so a
password check is string equality.  The field `email_verified` is
modelled from the spec: `models.py` does not declare it, but
`utils.py` assigns it and the spec data model gives the user a
verified flag. -/
structure User where
  id : Nat
  username : String
  email : String
  password : String
  first_name : String
  last_name : String
  firebase_uid : Option String
  is_active : Bool
  email_verified : Bool
deriving Repr, DecidableEq

/-- Modelled from the spec: the `EmailVerificationToken` model class is
referenced by `utils.py` but not declared under `src/`.  Per the spec a
token record carries a token value, a creation time, an expiry time and
a used flag, and belongs to one user.  The single token value field is
named `code`, the keyword used at the creation site in
`send_verification_email`. -/
structure EmailVerificationToken where
  id : Nat
  user_id : Nat
  code : String
  created_at : Nat
  expires_at : Nat
  is_used : Bool
deriving Repr, DecidableEq

/-- Modelled from the spec: the `PasswordResetToken` model class is
referenced by `utils.py` but not declared under `src/`.  Same fields as
the email kind, with the value field named `token` as at its creation
site in `send_password_reset_email`. -/
structure PasswordResetToken where
  id : Nat
  user_id : Nat
  token : String
  created_at : Nat
  expires_at : Nat
  is_used : Bool
deriving Repr, DecidableEq

/-- Modelled from the spec: the `is_valid` method of the token models is
not under `src/`.  The spec invariant reads: a token is valid iff
`now < expires_at AND used == false` (strict comparison at the expiry
instant). -/
def EmailVerificationToken.is_valid (t : EmailVerificationToken) (now : Nat) : Bool :=
  decide (now < t.expires_at) && !t.is_used

/-- Modelled from the spec: `is_valid` for the password-reset kind,
identical invariant. -/
def PasswordResetToken.is_valid (t : PasswordResetToken) (now : Nat) : Bool :=
  decide (now < t.expires_at) && !t.is_used

/-- The persisted state: the user table and the two token tables. -/
structure Store where
  users : List User
  emailTokens : List EmailVerificationToken
  resetTokens : List PasswordResetToken
deriving Repr, DecidableEq

/-- Outcome of a Django `Model.objects.get(...)` call: the unique match,
a `DoesNotExist` exception, or a `MultipleObjectsReturned` exception. -/
inductive GetResult (α : Type) where
  | found (a : α)
  | missing
  | multiple
deriving Repr, DecidableEq

/-- Django `objects.get` on the records satisfying a filter: exactly one
match is returned; zero raises `DoesNotExist`; more raise
`MultipleObjectsReturned`. -/
def getOne {α : Type} (l : List α) : GetResult α :=
  match l with
  | [] => GetResult.missing
  | [a] => GetResult.found a
  | _ => GetResult.multiple

/-- The `(success, message, payload)` triple returned by the two verify
functions in `utils.py`; `payload = none` models Python `None`. -/
structure VerifyResult (α : Type) where
  success : Bool
  message : String
  payload : Option α
deriving Repr, DecidableEq

/-- Foreign-key dereference `verification_token.user`: look the user up
by primary key. -/
def findUser (users : List User) (uid : Nat) : Option User :=
  users.find? (fun u => u.id == uid)

/-- Django `save()` on a token instance: update the row with the same
primary key. -/
def markEmailTokenUsed (l : List EmailVerificationToken) (tid : Nat) :
    List EmailVerificationToken :=
  l.map (fun t => if t.id == tid then { t with is_used := true } else t)

/-- Django `save()` on a reset-token instance marked used. -/
def markResetTokenUsed (l : List PasswordResetToken) (tid : Nat) :
    List PasswordResetToken :=
  l.map (fun t => if t.id == tid then { t with is_used := true } else t)

/-- Django `save()` on a user instance: update the row with the same
primary key. -/
def saveUser (users : List User) (u : User) : List User :=
  users.map (fun w => if w.id == u.id then u else w)

/-- Embedding of `verify_email_token` (`utils.py` lines 172-204).  The
outer `Option` models uncaught exceptions: `none` is the
`MultipleObjectsReturned` / user `DoesNotExist` case that the
`try/except` clause does not catch.  The result carries the tuple and
the post-state. -/
def verify_email_token (token : String) (now : Nat) (s : Store) :
    Option (VerifyResult User × Store) :=
  match getOne (s.emailTokens.filter (fun t => t.code == token)) with
  | GetResult.missing => some (⟨false, "Invalid verification token.", none⟩, s)
  | GetResult.multiple => none
  | GetResult.found vt =>
    if !(vt.is_valid now) then
      if vt.is_used then
        some (⟨false, "This verification link has already been used.", none⟩, s)
      else
        some (⟨false, "This verification link has expired.", none⟩, s)
    else
      let s1 : Store := { s with emailTokens := markEmailTokenUsed s.emailTokens vt.id }
      match findUser s1.users vt.user_id with
      | none => none
      | some u =>
        let u2 : User := { u with email_verified := true }
        some (⟨true, "Email verified successfully!", some u2⟩,
              { s1 with users := saveUser s1.users u2 })

/-- Embedding of `verify_password_reset_token` (`utils.py` lines
206-228).  Note that the source function does not mutate the store: it
returns the token record without marking it used. -/
def verify_password_reset_token (token : String) (now : Nat) (s : Store) :
    Option (VerifyResult PasswordResetToken × Store) :=
  match getOne (s.resetTokens.filter (fun t => t.token == token)) with
  | GetResult.missing => some (⟨false, "Invalid password reset token.", none⟩, s)
  | GetResult.multiple => none
  | GetResult.found rt =>
    if !(rt.is_valid now) then
      if rt.is_used then
        some (⟨false, "This password reset link has already been used.", none⟩, s)
      else
        some (⟨false, "This password reset link has expired.", none⟩, s)
    else
      some (⟨true, "Token is valid.", some rt⟩, s)

/-- Modelled from the spec: the password-change step that consumes a
reset token is not under `src/` (no reset-confirm view exists there).
Per spec section 4.2 step 4, a valid reset token is atomically marked
`used = true` and the token record is returned so the password change
can proceed.  This composes the `src/` validator with that marking. -/
def validate_and_consume_reset (token : String) (now : Nat) (s : Store) :
    Option (VerifyResult PasswordResetToken × Store) :=
  match verify_password_reset_token token now s with
  | none => none
  | some (r, s1) =>
    match r.payload with
    | none => some (r, s1)
    | some rt =>
      some (r, { s1 with resetTokens := markResetTokenUsed s1.resetTokens rt.id })

/-- Python `random.randint(lo, hi)`: a uniform draw from the closed
interval, modelled by reducing an explicit random seed. -/
def randint (lo hi rand : Nat) : Nat :=
  lo + rand % (hi - lo + 1)

/-- Python `timedelta(minutes = m)` in seconds. -/
def timedelta_minutes (m : Nat) : Nat := m * 60

/-- Python `timedelta(hours = h)` in seconds. -/
def timedelta_hours (h : Nat) : Nat := h * 3600

/-- Primary key the database assigns to a freshly inserted row. -/
def nextId (ids : List Nat) : Nat := ids.foldr max 0 + 1

/-- Python `str(uuid.uuid4())`: a random 128-bit identifier in printable
encoding, modelled from the random seed. -/
def uuid4 (rand : Nat) : String := toString (rand % 2 ^ 128)

/-- Embedding of `send_verification_email` (`utils.py` lines 5-78):
generate `str(random.randint(100000, 999999))`, persist an
`EmailVerificationToken` expiring 15 minutes from now, then send the
mail; a mail failure is printed and re-raised (`Except.error`), after
the token row is already persisted. -/
def send_verification_email (u : User) (rand now : Nat) (mailOk : Bool) (s : Store) :
    Except String EmailVerificationToken × Store :=
  let code : String := toString (randint 100000 999999 rand)
  let vt : EmailVerificationToken :=
    { id := nextId (s.emailTokens.map (fun t => t.id))
      user_id := u.id
      code := code
      created_at := now
      expires_at := now + timedelta_minutes 15
      is_used := false }
  let s1 : Store := { s with emailTokens := s.emailTokens ++ [vt] }
  if mailOk then (Except.ok vt, s1)
  else (Except.error "Error sending verification email", s1)

/-- Embedding of `send_password_reset_email` (`utils.py` lines 81-169):
generate `str(uuid.uuid4())`, persist a `PasswordResetToken` expiring 1
hour from now, then send the mail; a mail failure is printed and
re-raised after the token row is already persisted. -/
def send_password_reset_email (u : User) (rand now : Nat) (mailOk : Bool) (s : Store) :
    Except String PasswordResetToken × Store :=
  let tok : String := uuid4 rand
  let rt : PasswordResetToken :=
    { id := nextId (s.resetTokens.map (fun t => t.id))
      user_id := u.id
      token := tok
      created_at := now
      expires_at := now + timedelta_hours 1
      is_used := false }
  let s1 : Store := { s with resetTokens := s.resetTokens ++ [rt] }
  if mailOk then (Except.ok rt, s1)
  else (Except.error "Error sending password reset email", s1)

/-- Request body of `POST /api/auth/register/` as the
`UserRegistrationSerializer` receives it. -/
structure RegistrationInput where
  username : String
  email : String
  password : String
  password2 : String
  first_name : String
  last_name : String
  firebase_uid : Option String
deriving Repr, DecidableEq

/-- Pluggable framework validation: the Django password-strength policy
(`validate_password`, configured via settings) and the `EmailField`
format check.  Both are external collaborators, so they are parameters
of the embedding. -/
structure RegPolicy where
  passwordOk : String → Bool
  emailFormatOk : String → Bool

/-- Field-level validation errors, as the DRF `to_internal_value` pass
collects them: the `EmailField` format check, the serializer method
`validate_email` (`serializers.py` lines 44-50, duplicate email), the
unique-username constraint the `ModelSerializer` derives from the model,
and the password-strength validators attached to the `password` field.
Each error is a `(field, message)` pair. -/
def fieldErrors (pol : RegPolicy) (users : List User) (inp : RegistrationInput) :
    List (String × String) :=
  (if !(pol.emailFormatOk inp.email) then [("email", "Enter a valid email address.")] else [])
    ++ (if users.any (fun u => u.email == inp.email) then
          [("email", "A user with this email already exists.")] else [])
    ++ (if users.any (fun u => u.username == inp.username) then
          [("username", "A user with that username already exists.")] else [])
    ++ (if !(pol.passwordOk inp.password) then
          [("password", "This password is too weak.")] else [])

/-- Object-level `UserRegistrationSerializer.validate` (`serializers.py`
lines 34-42): reject when the two password fields differ. -/
def UserRegistrationSerializer_validate (inp : RegistrationInput) :
    Except (List (String × String)) RegistrationInput :=
  if inp.password != inp.password2 then
    Except.error [("password", "Password fields didn\x27t match.")]
  else
    Except.ok inp

/-- The `create` method (`serializers.py` lines 52-67):
`User.objects.create_user` with the validated fields; Django defaults
give a fresh active, unverified user.  Password hashing is abstracted to
the identity. -/
def serializer_create (users : List User) (inp : RegistrationInput) : User :=
  { id := nextId (users.map (fun u => u.id))
    username := inp.username
    email := inp.email
    password := inp.password
    first_name := inp.first_name
    last_name := inp.last_name
    firebase_uid := inp.firebase_uid
    is_active := true
    email_verified := false }

/-- Embedding of `RegisterView.post` (`views.py` lines 24-47) through
the DRF validation pipeline: `serializer.is_valid()` first runs all
field-level validators (collected by `to_internal_value`); only when no
field errored does the object-level `validate` run; `serializer.save()`
persists the user only on full success.  Failure returns the error map
with status 400 and leaves the store unchanged. -/
def register (pol : RegPolicy) (inp : RegistrationInput) (s : Store) :
    Except (List (String × String)) User × Store :=
  let fe := fieldErrors pol s.users inp
  if fe.isEmpty then
    match UserRegistrationSerializer_validate inp with
    | Except.error es => (Except.error es, s)
    | Except.ok v =>
      let u := serializer_create s.users v
      (Except.ok u, { s with users := s.users ++ [u] })
  else
    (Except.error fe, s)

/-- Django `authenticate(username=..., password=...)` under the default
`ModelBackend`: fetch the user by username, check the password, and
reject inactive accounts (`user_can_authenticate`). -/
def authenticate (users : List User) (username pw : String) : Option User :=
  match users.find? (fun u => u.username == username) with
  | none => none
  | some u => if u.password == pw && u.is_active then some u else none

/-- Embedding of `LoginSerializer.validate` (`serializers.py` lines
81-115): empty email or password falls to the must-include branch
(Python truthiness); otherwise look the user up by email, authenticate
by username, and reject inactive accounts; both the unknown-email and
the failed-authentication branches raise the same error message. -/
def LoginSerializer_validate (users : List User) (email pw : String) :
    Except String User :=
  if !email.isEmpty && !pw.isEmpty then
    match users.find? (fun u => u.email == email) with
    | none => Except.error "Invalid email or password."
    | some u =>
      match authenticate users u.username pw with
      | none => Except.error "Invalid email or password."
      | some u2 =>
        if !u2.is_active then Except.error "User account is disabled."
        else Except.ok u2
  else
    Except.error "Must include \"email\" and \"password\"."

/-! Helper lemmas -/

/-- Inversion for `getOne`: a found result means the filtered list was a
singleton. -/
lemma getOne_found_iff {α : Type} {l : List α} {a : α} :
    getOne l = GetResult.found a ↔ l = [a] := by
  constructor
  · intro h
    match l, h with
    | [x], h => cases h; rfl
  · intro h; subst h; rfl

/-- Marking one email token used does not change which tokens a
code-filter selects; the selected singleton comes out marked. -/
lemma filter_markEmailTokenUsed {l : List EmailVerificationToken} {tok : String}
    {vt : EmailVerificationToken}
    (h : l.filter (fun t => t.code == tok) = [vt]) :
    (markEmailTokenUsed l vt.id).filter (fun t => t.code == tok)
      = [{ vt with is_used := true }] := by
  unfold markEmailTokenUsed
  rw [List.filter_map]
  have hco : ((fun t : EmailVerificationToken => t.code == tok) ∘
      (fun t => if t.id == vt.id then { t with is_used := true } else t))
      = (fun t : EmailVerificationToken => t.code == tok) := by
    funext t
    by_cases hid : t.id = vt.id <;> simp [hid]
  rw [hco, h]
  simp

/-- Marking one reset token used does not change which tokens a
value-filter selects; the selected singleton comes out marked. -/
lemma filter_markResetTokenUsed {l : List PasswordResetToken} {tok : String}
    {rt : PasswordResetToken}
    (h : l.filter (fun t => t.token == tok) = [rt]) :
    (markResetTokenUsed l rt.id).filter (fun t => t.token == tok)
      = [{ rt with is_used := true }] := by
  unfold markResetTokenUsed
  rw [List.filter_map]
  have hco : ((fun t : PasswordResetToken => t.token == tok) ∘
      (fun t => if t.id == rt.id then { t with is_used := true } else t))
      = (fun t : PasswordResetToken => t.token == tok) := by
    funext t
    by_cases hid : t.id = rt.id <;> simp [hid]
  rw [hco, h]
  simp

/-- Saving an updated user overwrites the row the lookup finds when the
update keeps the primary key. -/
lemma findUser_saveUser {users : List User} {u u2 : User}
    (hid : u2.id = u.id)
    (h : findUser users u.id = some u) :
    findUser (saveUser users u2) u.id = some u2 := by
  unfold findUser saveUser
  rw [List.find?_map]
  have hco : ((fun w : User => w.id == u.id) ∘
      (fun w => if w.id == u2.id then u2 else w))
      = (fun w : User => w.id == u.id) := by
    funext w
    by_cases hw : w.id = u2.id
    · simp [hw, hid]
    · simp [hw]
  rw [hco]
  unfold findUser at h
  rw [h]
  simp [hid]

/-- Behaviour of `verify_email_token` on a used token. -/
lemma verify_email_token_used {tok : String} {now : Nat} {s : Store}
    {vt : EmailVerificationToken}
    (hf : s.emailTokens.filter (fun t => t.code == tok) = [vt])
    (hu : vt.is_used = true) :
    verify_email_token tok now s =
      some (⟨false, "This verification link has already been used.", none⟩, s) := by
  unfold verify_email_token
  rw [hf]
  simp [getOne, EmailVerificationToken.is_valid, hu]

/-- Behaviour of `verify_email_token` on an unused token at or past its
expiry. -/
lemma verify_email_token_expired {tok : String} {now : Nat} {s : Store}
    {vt : EmailVerificationToken}
    (hf : s.emailTokens.filter (fun t => t.code == tok) = [vt])
    (hu : vt.is_used = false) (he : vt.expires_at ≤ now) :
    verify_email_token tok now s =
      some (⟨false, "This verification link has expired.", none⟩, s) := by
  unfold verify_email_token
  rw [hf]
  simp [getOne, EmailVerificationToken.is_valid, hu, Nat.not_lt.mpr he]

/-- Behaviour of `verify_email_token` on a valid token whose user
exists. -/
lemma verify_email_token_valid {tok : String} {now : Nat} {s : Store}
    {vt : EmailVerificationToken} {u : User}
    (hf : s.emailTokens.filter (fun t => t.code == tok) = [vt])
    (hv : vt.is_valid now = true)
    (hfu : findUser s.users vt.user_id = some u) :
    verify_email_token tok now s =
      some (⟨true, "Email verified successfully!", some { u with email_verified := true }⟩,
        { s with emailTokens := markEmailTokenUsed s.emailTokens vt.id,
                 users := saveUser s.users { u with email_verified := true } }) := by
  unfold verify_email_token
  rw [hf]
  simp [getOne, hv, hfu]

/-- Behaviour of `verify_password_reset_token` on a used token. -/
lemma verify_password_reset_token_used {tok : String} {now : Nat} {s : Store}
    {rt : PasswordResetToken}
    (hf : s.resetTokens.filter (fun t => t.token == tok) = [rt])
    (hu : rt.is_used = true) :
    verify_password_reset_token tok now s =
      some (⟨false, "This password reset link has already been used.", none⟩, s) := by
  unfold verify_password_reset_token
  rw [hf]
  simp [getOne, PasswordResetToken.is_valid, hu]

/-- Behaviour of `verify_password_reset_token` on an unused token at or
past its expiry. -/
lemma verify_password_reset_token_expired {tok : String} {now : Nat} {s : Store}
    {rt : PasswordResetToken}
    (hf : s.resetTokens.filter (fun t => t.token == tok) = [rt])
    (hu : rt.is_used = false) (he : rt.expires_at ≤ now) :
    verify_password_reset_token tok now s =
      some (⟨false, "This password reset link has expired.", none⟩, s) := by
  unfold verify_password_reset_token
  rw [hf]
  simp [getOne, PasswordResetToken.is_valid, hu, Nat.not_lt.mpr he]

/-- Behaviour of `verify_password_reset_token` on a valid token. -/
lemma verify_password_reset_token_valid {tok : String} {now : Nat} {s : Store}
    {rt : PasswordResetToken}
    (hf : s.resetTokens.filter (fun t => t.token == tok) = [rt])
    (hv : rt.is_valid now = true) :
    verify_password_reset_token tok now s =
      some (⟨true, "Token is valid.", some rt⟩, s) := by
  unfold verify_password_reset_token
  rw [hf]
  simp [getOne, hv]

/-- Inversion: a successful email verification came from a unique valid
token and an existing user, marked the token used, and saved the
verified user. -/
lemma verify_email_token_success_inv {tok : String} {now : Nat} {s : Store}
    {r : VerifyResult User} {s1 : Store}
    (h : verify_email_token tok now s = some (r, s1))
    (hs : r.success = true) :
    ∃ vt u, s.emailTokens.filter (fun t => t.code == tok) = [vt] ∧
      vt.is_valid now = true ∧ findUser s.users vt.user_id = some u ∧
      r = ⟨true, "Email verified successfully!", some { u with email_verified := true }⟩ ∧
      s1 = { s with emailTokens := markEmailTokenUsed s.emailTokens vt.id,
                    users := saveUser s.users { u with email_verified := true } } := by
  unfold verify_email_token at h
  cases hg : getOne (s.emailTokens.filter (fun t => t.code == tok)) with
  | missing =>
    rw [hg] at h
    simp only [Option.some.injEq, Prod.mk.injEq] at h
    rcases h with ⟨rfl, rfl⟩
    simp at hs
  | multiple =>
    rw [hg] at h
    simp at h
  | found vt =>
    rw [hg] at h
    by_cases hv : vt.is_valid now
    · simp only [hv, Bool.not_true, Bool.false_eq_true, if_false] at h
      cases hfu : findUser s.users vt.user_id with
      | none =>
        rw [hfu] at h
        simp at h
      | some u =>
        rw [hfu] at h
        simp only [Option.some.injEq, Prod.mk.injEq] at h
        rcases h with ⟨rfl, rfl⟩
        exact ⟨vt, u, getOne_found_iff.mp hg, hv, hfu, rfl, rfl⟩
    · simp only [Bool.not_eq_true] at hv
      simp only [hv, Bool.not_false, if_true] at h
      by_cases hu2 : vt.is_used <;>
        · simp only [hu2, if_true, if_false, Bool.false_eq_true,
            Option.some.injEq, Prod.mk.injEq] at h
          rcases h with ⟨rfl, rfl⟩
          simp at hs

/-- Inversion: a successful (unconsumed) reset validation came from a
unique valid token and left the store unchanged. -/
lemma verify_password_reset_token_success_inv {tok : String} {now : Nat} {s : Store}
    {r : VerifyResult PasswordResetToken} {s1 : Store}
    (h : verify_password_reset_token tok now s = some (r, s1))
    (hs : r.success = true) :
    ∃ rt, s.resetTokens.filter (fun t => t.token == tok) = [rt] ∧
      rt.is_valid now = true ∧
      r = ⟨true, "Token is valid.", some rt⟩ ∧ s1 = s := by
  unfold verify_password_reset_token at h
  cases hg : getOne (s.resetTokens.filter (fun t => t.token == tok)) with
  | missing =>
    rw [hg] at h
    simp only [Option.some.injEq, Prod.mk.injEq] at h
    rcases h with ⟨rfl, rfl⟩
    simp at hs
  | multiple =>
    rw [hg] at h
    simp at h
  | found rt =>
    rw [hg] at h
    by_cases hv : rt.is_valid now
    · simp only [hv, Bool.not_true, Bool.false_eq_true, if_false,
        Option.some.injEq, Prod.mk.injEq] at h
      rcases h with ⟨rfl, rfl⟩
      exact ⟨rt, getOne_found_iff.mp hg, hv, rfl, rfl⟩
    · simp only [Bool.not_eq_true] at hv
      simp only [hv, Bool.not_false, if_true] at h
      by_cases hu2 : rt.is_used <;>
        · simp only [hu2, if_true, if_false, Bool.false_eq_true,
            Option.some.injEq, Prod.mk.injEq] at h
          rcases h with ⟨rfl, rfl⟩
          simp at hs

/-- Inversion: a successful consuming reset validation marked the unique
valid token used. -/
lemma validate_and_consume_reset_success_inv {tok : String} {now : Nat} {s : Store}
    {r : VerifyResult PasswordResetToken} {s1 : Store}
    (h : validate_and_consume_reset tok now s = some (r, s1))
    (hs : r.success = true) :
    ∃ rt, s.resetTokens.filter (fun t => t.token == tok) = [rt] ∧
      rt.is_valid now = true ∧
      r = ⟨true, "Token is valid.", some rt⟩ ∧
      s1 = { s with resetTokens := markResetTokenUsed s.resetTokens rt.id } := by
  unfold validate_and_consume_reset at h
  cases hverify : verify_password_reset_token tok now s with
  | none =>
    rw [hverify] at h
    simp at h
  | some p =>
    rw [hverify] at h
    obtain ⟨r0, s0⟩ := p
    obtain ⟨rt, hf, hv, hr0, hs0⟩ :=
      verify_password_reset_token_success_inv hverify (by
        cases hp : r0.payload with
        | none =>
          simp only [hp] at h
          simp only [Option.some.injEq, Prod.mk.injEq] at h
          rcases h with ⟨rfl, rfl⟩
          exact hs
        | some rt0 =>
          simp only [hp] at h
          simp only [Option.some.injEq, Prod.mk.injEq] at h
          rcases h with ⟨rfl, rfl⟩
          exact hs)
    subst hr0
    subst hs0
    simp only [Option.some.injEq, Prod.mk.injEq] at h
    rcases h with ⟨rfl, rfl⟩
    exact ⟨rt, hf, hv, rfl, rfl⟩

/-- Behaviour of the consuming reset validation on a used token. -/
lemma validate_and_consume_reset_used {tok : String} {now : Nat} {s : Store}
    {rt : PasswordResetToken}
    (hf : s.resetTokens.filter (fun t => t.token == tok) = [rt])
    (hu : rt.is_used = true) :
    validate_and_consume_reset tok now s =
      some (⟨false, "This password reset link has already been used.", none⟩, s) := by
  unfold validate_and_consume_reset
  rw [verify_password_reset_token_used hf hu]

/-- Membership and value of the unique token a filter selects. -/
lemma of_filter_singleton {α : Type} {p : α → Bool} {l : List α} {a : α}
    (h : l.filter p = [a]) : a ∈ l ∧ p a = true := by
  have ha : a ∈ l.filter p := by rw [h]; exact List.mem_singleton_self a
  exact ⟨List.mem_of_mem_filter ha, List.of_mem_filter ha⟩

/-! Concrete values used by the witnesses -/

def w_user : User := ⟨1, "alice", "alice@example.com", "pw1", "", "", none, true, false⟩

def w_etoken : EmailVerificationToken := ⟨1, 1, "482913", 100, 1000, false⟩

def w_rtoken : PasswordResetToken := ⟨1, 1, "reset-uuid-1", 100, 3700, false⟩

def w_store : Store := ⟨[w_user], [w_etoken], [w_rtoken]⟩

def w_store_after_email : Store :=
  ⟨[⟨1, "alice", "alice@example.com", "pw1", "", "", none, true, true⟩],
   [⟨1, 1, "482913", 100, 1000, true⟩], [w_rtoken]⟩

def w_store_after_reset : Store :=
  ⟨[w_user], [w_etoken], [⟨1, 1, "reset-uuid-1", 100, 3700, true⟩]⟩

/-! Claim theorems -/

/-- C1: for every token of either kind, validating and consuming the
same token value twice yields success on the first call and the
already-used error on the second, never two successes: a successful
validation leaves the token permanently marked used in the store, and
any later call on that value answers the already-used error. -/
theorem C1_validate_twice_single_use :
    (∀ (s : Store) (tok : String) (now : Nat) (r : VerifyResult User) (s1 : Store),
      verify_email_token tok now s = some (r, s1) → r.success = true →
      (∃ t ∈ s1.emailTokens, t.code = tok ∧ t.is_used = true) ∧
      ∀ now2 : Nat, verify_email_token tok now2 s1 =
        some (⟨false, "This verification link has already been used.", none⟩, s1))
    ∧
    (∀ (s : Store) (tok : String) (now : Nat) (r : VerifyResult PasswordResetToken) (s1 : Store),
      validate_and_consume_reset tok now s = some (r, s1) → r.success = true →
      (∃ t ∈ s1.resetTokens, t.token = tok ∧ t.is_used = true) ∧
      ∀ now2 : Nat, validate_and_consume_reset tok now2 s1 =
        some (⟨false, "This password reset link has already been used.", none⟩, s1)) := by
  constructor
  · intro s tok now r s1 h hsucc
    obtain ⟨vt, u, hf, hv, hfu, hr, hs1⟩ := verify_email_token_success_inv h hsucc
    subst hs1
    have hf1 : (markEmailTokenUsed s.emailTokens vt.id).filter (fun t => t.code == tok)
        = [{ vt with is_used := true }] := filter_markEmailTokenUsed hf
    have hcode : vt.code = tok := by
      have := (of_filter_singleton hf).2
      exact_mod_cast beq_iff_eq.mp this
    constructor
    · refine ⟨{ vt with is_used := true }, ?_, hcode, rfl⟩
      exact (of_filter_singleton hf1).1
    · intro now2
      exact verify_email_token_used hf1 rfl
  · intro s tok now r s1 h hsucc
    obtain ⟨rt, hf, hv, hr, hs1⟩ := validate_and_consume_reset_success_inv h hsucc
    subst hs1
    have hf1 : (markResetTokenUsed s.resetTokens rt.id).filter (fun t => t.token == tok)
        = [{ rt with is_used := true }] := filter_markResetTokenUsed hf
    have hcode : rt.token = tok := by
      have := (of_filter_singleton hf).2
      exact_mod_cast beq_iff_eq.mp this
    constructor
    · refine ⟨{ rt with is_used := true }, ?_, hcode, rfl⟩
      exact (of_filter_singleton hf1).1
    · intro now2
      exact validate_and_consume_reset_used hf1 rfl

/-- Witness for C1: the alice store, token consumed at time 500, second
call at time 600 answers the already-used error, for both kinds. -/
theorem C1_validate_twice_single_use_witness :
    verify_email_token "482913" 600 w_store_after_email =
      some (⟨false, "This verification link has already been used.", none⟩,
        w_store_after_email)
    ∧ validate_and_consume_reset "reset-uuid-1" 600 w_store_after_reset =
      some (⟨false, "This password reset link has already been used.", none⟩,
        w_store_after_reset) := by
  constructor
  · exact (C1_validate_twice_single_use.1 w_store "482913" 500
      ⟨true, "Email verified successfully!", some { w_user with email_verified := true }⟩
      w_store_after_email (by decide) rfl).2 600
  · exact (C1_validate_twice_single_use.2 w_store "reset-uuid-1" 500
      ⟨true, "Token is valid.", some w_rtoken⟩
      w_store_after_reset (by decide) rfl).2 600

def w_used_store : Store :=
  ⟨[w_user], [⟨1, 1, "482913", 100, 1000, true⟩],
   [⟨1, 1, "reset-uuid-1", 100, 3700, true⟩]⟩

/-- C2: for both token kinds, a token that is both already used and
expired at validation time is reported as already used, not expired:
the used check precedes the expiry check. -/
theorem C2_used_reported_before_expired :
    (∀ (s : Store) (tok : String) (now : Nat) (vt : EmailVerificationToken),
      s.emailTokens.filter (fun t => t.code == tok) = [vt] →
      vt.is_used = true → vt.expires_at ≤ now →
      verify_email_token tok now s =
        some (⟨false, "This verification link has already been used.", none⟩, s))
    ∧
    (∀ (s : Store) (tok : String) (now : Nat) (rt : PasswordResetToken),
      s.resetTokens.filter (fun t => t.token == tok) = [rt] →
      rt.is_used = true → rt.expires_at ≤ now →
      verify_password_reset_token tok now s =
        some (⟨false, "This password reset link has already been used.", none⟩, s)) :=
  ⟨fun _ _ _ _ hf hu _ => verify_email_token_used hf hu,
   fun _ _ _ _ hf hu _ => verify_password_reset_token_used hf hu⟩

/-- Witness for C2: at time 5000 both concrete tokens are used and long
expired; both validations answer the already-used error. -/
theorem C2_used_reported_before_expired_witness :
    verify_email_token "482913" 5000 w_used_store =
      some (⟨false, "This verification link has already been used.", none⟩, w_used_store)
    ∧ verify_password_reset_token "reset-uuid-1" 5000 w_used_store =
      some (⟨false, "This password reset link has already been used.", none⟩, w_used_store) :=
  ⟨C2_used_reported_before_expired.1 w_used_store "482913" 5000
      ⟨1, 1, "482913", 100, 1000, true⟩ (by decide) rfl (by decide),
   C2_used_reported_before_expired.2 w_used_store "reset-uuid-1" 5000
      ⟨1, 1, "reset-uuid-1", 100, 3700, true⟩ (by decide) rfl (by decide)⟩

/-- C3: for both token kinds, a stored token is valid iff the current
time is strictly below the expiry time and the token is unused; in
particular validation of an unused token at exactly the expiry instant
reports the expired error. -/
theorem C3_validity_invariant_and_boundary :
    (∀ (t : EmailVerificationToken) (now : Nat),
      t.is_valid now = true ↔ (now < t.expires_at ∧ t.is_used = false))
    ∧ (∀ (t : PasswordResetToken) (now : Nat),
      t.is_valid now = true ↔ (now < t.expires_at ∧ t.is_used = false))
    ∧ (∀ (s : Store) (tok : String) (vt : EmailVerificationToken),
      s.emailTokens.filter (fun t => t.code == tok) = [vt] → vt.is_used = false →
      verify_email_token tok vt.expires_at s =
        some (⟨false, "This verification link has expired.", none⟩, s))
    ∧ (∀ (s : Store) (tok : String) (rt : PasswordResetToken),
      s.resetTokens.filter (fun t => t.token == tok) = [rt] → rt.is_used = false →
      verify_password_reset_token tok rt.expires_at s =
        some (⟨false, "This password reset link has expired.", none⟩, s)) := by
  refine ⟨?_, ?_, ?_, ?_⟩
  · intro t now
    simp [EmailVerificationToken.is_valid]
  · intro t now
    simp [PasswordResetToken.is_valid]
  · intro s tok vt hf hu
    exact verify_email_token_expired hf hu (Nat.le_refl _)
  · intro s tok rt hf hu
    exact verify_password_reset_token_expired hf hu (Nat.le_refl _)

/-- Witness for C3: the concrete unused tokens presented at exactly
their expiry instants are reported expired. -/
theorem C3_validity_invariant_and_boundary_witness :
    verify_email_token "482913" 1000 w_store =
      some (⟨false, "This verification link has expired.", none⟩, w_store)
    ∧ verify_password_reset_token "reset-uuid-1" 3700 w_store =
      some (⟨false, "This password reset link has expired.", none⟩, w_store) :=
  ⟨C3_validity_invariant_and_boundary.2.2.1 w_store "482913" w_etoken (by decide) rfl,
   C3_validity_invariant_and_boundary.2.2.2 w_store "reset-uuid-1" w_rtoken (by decide) rfl⟩

/-- C4: issue then validate round trip for the email kind: the code
issued by `send_verification_email`, presented before its expiry while
no other stored token shares its value and the issuing user exists, is
found by value, succeeds, and marks that user verified (in the returned
payload and in the saved user row). -/
theorem C4_issue_then_validate :
    ∀ (u : User) (rand now : Nat) (s : Store) (vt : EmailVerificationToken) (s1 : Store),
      send_verification_email u rand now true s = (Except.ok vt, s1) →
      (∀ t ∈ s.emailTokens, ¬t.code = vt.code) →
      findUser s.users u.id = some u →
      ∀ now2 : Nat, now2 < vt.expires_at →
        verify_email_token vt.code now2 s1 =
          some (⟨true, "Email verified successfully!", some { u with email_verified := true }⟩,
            { s1 with emailTokens := markEmailTokenUsed s1.emailTokens vt.id,
                      users := saveUser s1.users { u with email_verified := true } }) ∧
        findUser (saveUser s1.users { u with email_verified := true }) u.id =
          some { u with email_verified := true } := by
  intro u rand now s vt s1 hsend hfresh hfind now2 hlt
  unfold send_verification_email at hsend
  simp only [if_true, Prod.mk.injEq, Except.ok.injEq] at hsend
  obtain ⟨hvt, hs1⟩ := hsend
  subst hs1
  rw [hvt]
  have hused : vt.is_used = false := by rw [← hvt]
  have huid : vt.user_id = u.id := by rw [← hvt]
  have hnil : s.emailTokens.filter (fun t => t.code == vt.code) = [] := by
    rw [List.filter_eq_nil_iff]
    intro t ht
    simpa using hfresh t ht
  have hf : (s.emailTokens ++ [vt]).filter (fun t => t.code == vt.code) = [vt] := by
    rw [List.filter_append, hnil]
    simp
  have hv : vt.is_valid now2 = true := by
    simp [EmailVerificationToken.is_valid, hlt, hused]
  refine ⟨verify_email_token_valid hf hv ?_, findUser_saveUser (by rfl) hfind⟩
  show findUser s.users vt.user_id = some u
  rw [huid]
  exact hfind

/-- Witness for C4: issuing for alice at time 500 with seed 42 yields
code 100042 expiring at 1400; validated at time 600 it succeeds and
alice comes out verified. -/
theorem C4_issue_then_validate_witness :
    verify_email_token "100042" 600
        ⟨[w_user], [w_etoken, ⟨2, 1, "100042", 500, 1400, false⟩], [w_rtoken]⟩ =
      some (⟨true, "Email verified successfully!",
          some { w_user with email_verified := true }⟩,
        ⟨[{ w_user with email_verified := true }],
         [w_etoken, ⟨2, 1, "100042", 500, 1400, true⟩], [w_rtoken]⟩)
    ∧ findUser [{ w_user with email_verified := true }] 1 =
        some { w_user with email_verified := true } := by
  have h := C4_issue_then_validate w_user 42 500 w_store
    ⟨2, 1, "100042", 500, 1400, false⟩
    ⟨[w_user], [w_etoken, ⟨2, 1, "100042", 500, 1400, false⟩], [w_rtoken]⟩
    (by rfl) (by decide) rfl 600 (by decide)
  exact h

/-- Fuel-generic lower bound for `Nat.toDigitsCore`: a number at least
`10 ^ e` produces more than `e` digit characters. -/
lemma toDigitsCore_length_lower :
    ∀ (e f n : Nat), 10 ^ e ≤ n → e < f →
      e + 1 ≤ (Nat.toDigitsCore 10 f n []).length := by
  intro e
  induction e with
  | zero =>
    intro f n _ hf
    match f, hf with
    | f + 1, _ =>
      simp only [Nat.toDigitsCore]
      by_cases hq : n / 10 = 0
      · rw [if_pos hq]
        simp
      · rw [if_neg hq, Nat.toDigitsCore_lens_eq]
        omega
  | succ e ih =>
    intro f n hn hf
    match f, hf with
    | f + 1, hf =>
      have hdiv : 10 ^ e ≤ n / 10 := by
        rw [Nat.le_div_iff_mul_le (by norm_num)]
        calc 10 ^ e * 10 = 10 ^ (e + 1) := by ring
          _ ≤ n := hn
      have hne : n / 10 ≠ 0 := by
        have hpos : 0 < 10 ^ e := Nat.pos_pow_of_pos e (by norm_num)
        omega
      simp only [Nat.toDigitsCore]
      rw [if_neg hne, Nat.toDigitsCore_lens_eq]
      have := ih f (n / 10) hdiv (Nat.lt_of_succ_lt_succ hf)
      omega

/-- The decimal representation of a number in 100000..999999 has exactly
six characters. -/
lemma repr_length_six {n : Nat} (h1 : 100000 ≤ n) (h2 : n ≤ 999999) :
    (Nat.repr n).length = 6 := by
  have hup : (Nat.repr n).length ≤ 6 :=
    Nat.repr_length n 6 (by norm_num) (by omega)
  have hlo : 6 ≤ (Nat.repr n).length := by
    have h5 : 10 ^ 5 ≤ n := by omega
    have h := toDigitsCore_length_lower 5 (n + 1) n h5 (by omega)
    simpa [Nat.repr, Nat.toDigits, String.length, List.asString] using h
  omega

/-- All characters `Nat.digitChar` makes from a remainder below ten are
decimal digits. -/
lemma digitChar_isDigit : ∀ m : Nat, m < 10 → (Nat.digitChar m).isDigit = true := by
  decide

/-- All characters `Nat.toDigitsCore` produces in base ten are decimal
digits, given the accumulator holds only digits. -/
lemma toDigitsCore_all_digits :
    ∀ (f n : Nat) (l : List Char), (∀ c ∈ l, c.isDigit = true) →
      ∀ c ∈ Nat.toDigitsCore 10 f n l, c.isDigit = true := by
  intro f
  induction f with
  | zero =>
    intro n l hl
    simpa [Nat.toDigitsCore] using hl
  | succ f ih =>
    intro n l hl
    have hd : (Nat.digitChar (n % 10)).isDigit = true :=
      digitChar_isDigit (n % 10) (Nat.mod_lt _ (by norm_num))
    have hcons : ∀ c ∈ Nat.digitChar (n % 10) :: l, c.isDigit = true := by
      intro c hc
      rcases List.mem_cons.mp hc with rfl | hc
      · exact hd
      · exact hl c hc
    simp only [Nat.toDigitsCore]
    by_cases hq : n / 10 = 0
    · rw [if_pos hq]
      exact hcons
    · rw [if_neg hq]
      exact ih (n / 10) (Nat.digitChar (n % 10) :: l) hcons

/-- The store `send_verification_email` leaves behind, whether or not
the mail dispatch succeeds. -/
lemma send_verification_email_snd (u : User) (rand now : Nat) (mailOk : Bool) (s : Store) :
    (send_verification_email u rand now mailOk s).2 =
      { s with emailTokens := s.emailTokens ++
          [⟨nextId (s.emailTokens.map (fun t => t.id)), u.id,
            toString (randint 100000 999999 rand), now,
            now + timedelta_minutes 15, false⟩] } := by
  cases mailOk <;> rfl

/-- C5: every email-verification issuance appends one token whose code
is the decimal string of a number in 100000..999999 - a 6-character
all-digit string - and whose expiry is its creation time plus 15
minutes. -/
theorem C5_code_format_and_expiry :
    ∀ (u : User) (rand now : Nat) (mailOk : Bool) (s : Store),
      ∃ vt : EmailVerificationToken,
        (send_verification_email u rand now mailOk s).2.emailTokens
            = s.emailTokens ++ [vt] ∧
        (∃ n : Nat, vt.code = toString n ∧ 100000 ≤ n ∧ n ≤ 999999) ∧
        vt.code.length = 6 ∧
        vt.code.data.all Char.isDigit = true ∧
        vt.expires_at = vt.created_at + 15 * 60 := by
  intro u rand now mailOk s
  have hlo : 100000 ≤ randint 100000 999999 rand := by
    unfold randint
    omega
  have hhi : randint 100000 999999 rand ≤ 999999 := by
    unfold randint
    omega
  refine ⟨⟨nextId (s.emailTokens.map (fun t => t.id)), u.id,
      toString (randint 100000 999999 rand), now, now + timedelta_minutes 15, false⟩,
    ?_, ⟨randint 100000 999999 rand, rfl, hlo, hhi⟩, ?_, ?_, rfl⟩
  · rw [send_verification_email_snd]
  · exact repr_length_six hlo hhi
  · refine List.all_eq_true.mpr ?_
    exact toDigitsCore_all_digits (randint 100000 999999 rand + 1)
      (randint 100000 999999 rand) [] (by simp)

/-- C6: when the mail dispatch fails, both issuance calls report the
error to the caller (no silent success) while the freshly created token
row stays persisted in the store. -/
theorem C6_dispatch_failure_reported_token_persisted :
    ∀ (u : User) (rand now : Nat) (s : Store),
      (∃ msg vt, send_verification_email u rand now false s
          = (Except.error msg, { s with emailTokens := s.emailTokens ++ [vt] }))
      ∧ (∃ msg rt, send_password_reset_email u rand now false s
          = (Except.error msg, { s with resetTokens := s.resetTokens ++ [rt] })) := by
  intro u rand now s
  exact ⟨⟨_, _, rfl⟩, ⟨_, _, rfl⟩⟩

/-- C7: a login attempt with a nonexistent email and one with an
existing email but wrong password produce the same InvalidCredentials
error with the same message, so the response does not reveal whether the
account exists. -/
theorem C7_login_error_uniform :
    ∀ (users : List User) (e1 pw1 e2 pw2 : String) (u : User),
      e1.isEmpty = false → pw1.isEmpty = false →
      e2.isEmpty = false → pw2.isEmpty = false →
      users.find? (fun w => w.email == e1) = none →
      users.find? (fun w => w.email == e2) = some u →
      users.find? (fun w => w.username == u.username) = some u →
      ¬u.password = pw2 →
      LoginSerializer_validate users e1 pw1 = Except.error "Invalid email or password." ∧
      LoginSerializer_validate users e2 pw2 = Except.error "Invalid email or password." ∧
      LoginSerializer_validate users e1 pw1 = LoginSerializer_validate users e2 pw2 := by
  intro users e1 pw1 e2 pw2 u he1 hp1 he2 hp2 hf1 hf2 hfu hpw
  have h1 : LoginSerializer_validate users e1 pw1 =
      Except.error "Invalid email or password." := by
    unfold LoginSerializer_validate
    simp [he1, hp1, hf1]
  have h2 : LoginSerializer_validate users e2 pw2 =
      Except.error "Invalid email or password." := by
    unfold LoginSerializer_validate
    simp [he2, hp2, hf2, authenticate, hfu, hpw]
  exact ⟨h1, h2, h1.trans h2.symm⟩

/-- Witness for C7: against the alice store, a login with an unknown
email and a login with alice and a wrong password return identical
errors. -/
theorem C7_login_error_uniform_witness :
    LoginSerializer_validate [w_user] "nosuch@example.com" "x" =
      Except.error "Invalid email or password." ∧
    LoginSerializer_validate [w_user] "alice@example.com" "wrong" =
      Except.error "Invalid email or password." ∧
    LoginSerializer_validate [w_user] "nosuch@example.com" "x" =
      LoginSerializer_validate [w_user] "alice@example.com" "wrong" :=
  C7_login_error_uniform [w_user] "nosuch@example.com" "x" "alice@example.com" "wrong"
    w_user (by decide) (by decide) (by decide) (by decide)
    (by decide) (by decide) (by decide) (by decide)

/-- Behaviour of `register` when a field-level validator failed: the
field errors come back and no user is persisted. -/
lemma register_field_fail (pol : RegPolicy) (inp : RegistrationInput) (s : Store)
    (h : (fieldErrors pol s.users inp).isEmpty = false) :
    register pol inp s = (Except.error (fieldErrors pol s.users inp), s) := by
  simp [register, h]

/-- Behaviour of `register` when all field-level validators pass but the
two password fields differ: the password-mismatch error comes back and
no user is persisted. -/
lemma register_mismatch (pol : RegPolicy) (inp : RegistrationInput) (s : Store)
    (h : (fieldErrors pol s.users inp).isEmpty = true)
    (hne : ¬inp.password = inp.password2) :
    register pol inp s =
      (Except.error [("password", "Password fields didn\x27t match.")], s) := by
  simp [register, h, UserRegistrationSerializer_validate, hne]

def polAll : RegPolicy := ⟨fun _ => true, fun _ => true⟩

def w_bob : User := ⟨1, "bob", "bob@example.com", "pwb", "", "", none, true, false⟩

def w_c8_input : RegistrationInput := ⟨"newbob", "bob@example.com", "a", "b", "", "", none⟩

def w_c8_store : Store := ⟨[w_bob], [], []⟩

/-- C8 counterexample: this registration attempt has differing password
fields, yet `register` fails with only the duplicate-email entry in the
error map - no password-mismatch entry - because field-level validation
runs first and the object-level password check is skipped once a field
errored.  So a mismatched attempt does not always fail with the
password-mismatch error. -/
theorem C8_counterexample_mismatch_shadowed :
    (w_c8_input.password == w_c8_input.password2) = false ∧
    (register polAll w_c8_input w_c8_store).1 =
      Except.error [("email", "A user with this email already exists.")] ∧
    ([("email", "A user with this email already exists.")].contains
        ("password", "Password fields didn\x27t match.")) = false :=
  ⟨rfl, rfl, rfl⟩

/-- C8 amended: a registration attempt whose two password fields differ
always fails and persists no user (the store is unchanged); the failure
carries exactly the password-mismatch error whenever no field-level
validator (email format, duplicate email, duplicate username, password
strength) has already failed. -/
theorem C8_password_mismatch_rejected :
    ∀ (pol : RegPolicy) (inp : RegistrationInput) (s : Store),
      ¬inp.password = inp.password2 →
      (∃ es, (register pol inp s).1 = Except.error es) ∧
      (register pol inp s).2 = s ∧
      (fieldErrors pol s.users inp = [] →
        (register pol inp s).1 =
          Except.error [("password", "Password fields didn\x27t match.")]) := by
  intro pol inp s hne
  cases hfe : (fieldErrors pol s.users inp).isEmpty with
  | false =>
    rw [register_field_fail pol inp s hfe]
    refine ⟨⟨_, rfl⟩, rfl, fun hnil => ?_⟩
    rw [hnil] at hfe
    simp at hfe
  | true =>
    rw [register_mismatch pol inp s hfe hne]
    exact ⟨⟨_, rfl⟩, rfl, fun _ => rfl⟩

/-- Witness for C8 amended: registering carol with differing passwords
against an empty store fails, leaves the store empty, and reports the
password-mismatch error once field validation passes. -/
theorem C8_password_mismatch_rejected_witness :
    (∃ es, (register polAll ⟨"carol", "carol@example.com", "a", "b", "", "", none⟩
        ⟨[], [], []⟩).1 = Except.error es) ∧
    (register polAll ⟨"carol", "carol@example.com", "a", "b", "", "", none⟩
        ⟨[], [], []⟩).2 = (⟨[], [], []⟩ : Store) ∧
    (fieldErrors polAll [] ⟨"carol", "carol@example.com", "a", "b", "", "", none⟩ = [] →
      (register polAll ⟨"carol", "carol@example.com", "a", "b", "", "", none⟩
          ⟨[], [], []⟩).1 =
        Except.error [("password", "Password fields didn\x27t match.")]) :=
  C8_password_mismatch_rejected polAll
    ⟨"carol", "carol@example.com", "a", "b", "", "", none⟩ ⟨[], [], []⟩ (by decide)

/-- C9: a registration attempt whose email is already claimed fails with
the duplicate-email validation error among its errors and creates no
second user: the store is unchanged. -/
theorem C9_duplicate_email_rejected :
    ∀ (pol : RegPolicy) (inp : RegistrationInput) (s : Store),
      s.users.any (fun u => u.email == inp.email) = true →
      (∃ es, (register pol inp s).1 = Except.error es ∧
        ("email", "A user with this email already exists.") ∈ es) ∧
      (register pol inp s).2 = s := by
  intro pol inp s hdup
  have hmem : ("email", "A user with this email already exists.")
      ∈ fieldErrors pol s.users inp := by
    unfold fieldErrors
    rw [hdup]
    simp
  have hne : (fieldErrors pol s.users inp).isEmpty = false := by
    cases hfe : (fieldErrors pol s.users inp).isEmpty with
    | false => rfl
    | true =>
      rw [List.isEmpty_iff] at hfe
      rw [hfe] at hmem
      simp at hmem
  rw [register_field_fail pol inp s hne]
  exact ⟨⟨fieldErrors pol s.users inp, rfl, hmem⟩, rfl⟩

/-- Witness for C9: registering a second account on the email bob
already claims fails with the duplicate-email error and leaves the user
table unchanged. -/
theorem C9_duplicate_email_rejected_witness :
    (∃ es, (register polAll w_c8_input w_c8_store).1 = Except.error es ∧
      ("email", "A user with this email already exists.") ∈ es) ∧
    (register polAll w_c8_input w_c8_store).2 = w_c8_store :=
  C9_duplicate_email_rejected polAll w_c8_input w_c8_store (by decide)

/-- C10: whenever either verify function returns a tuple, the success
flag is true exactly when the payload is non-None, and every failure
carries a None payload together with a non-empty message. -/
theorem C10_success_iff_payload :
    (∀ (tok : String) (now : Nat) (s : Store) (r : VerifyResult User) (s1 : Store),
      verify_email_token tok now s = some (r, s1) →
      (r.success = true ↔ r.payload ≠ none) ∧
      (r.success = false → r.payload = none ∧ ¬r.message = ""))
    ∧ (∀ (tok : String) (now : Nat) (s : Store) (r : VerifyResult PasswordResetToken)
        (s1 : Store),
      verify_password_reset_token tok now s = some (r, s1) →
      (r.success = true ↔ r.payload ≠ none) ∧
      (r.success = false → r.payload = none ∧ ¬r.message = "")) := by
  constructor
  · intro tok now s r s1 h
    unfold verify_email_token at h
    cases hg : getOne (s.emailTokens.filter (fun t => t.code == tok)) with
    | missing =>
      rw [hg] at h
      simp only [Option.some.injEq, Prod.mk.injEq] at h
      rcases h with ⟨rfl, rfl⟩
      exact ⟨by simp, fun _ => ⟨rfl, by decide⟩⟩
    | multiple =>
      rw [hg] at h
      simp at h
    | found vt =>
      rw [hg] at h
      by_cases hv : vt.is_valid now
      · simp only [hv, Bool.not_true, Bool.false_eq_true, if_false] at h
        cases hfu : findUser s.users vt.user_id with
        | none =>
          rw [hfu] at h
          simp at h
        | some u =>
          rw [hfu] at h
          simp only [Option.some.injEq, Prod.mk.injEq] at h
          rcases h with ⟨rfl, rfl⟩
          exact ⟨by simp, by simp⟩
      · simp only [Bool.not_eq_true] at hv
        simp only [hv, Bool.not_false, if_true] at h
        by_cases hu2 : vt.is_used <;>
          · simp only [hu2, if_true, if_false, Bool.false_eq_true,
              Option.some.injEq, Prod.mk.injEq] at h
            rcases h with ⟨rfl, rfl⟩
            exact ⟨by simp, fun _ => ⟨rfl, by decide⟩⟩
  · intro tok now s r s1 h
    unfold verify_password_reset_token at h
    cases hg : getOne (s.resetTokens.filter (fun t => t.token == tok)) with
    | missing =>
      rw [hg] at h
      simp only [Option.some.injEq, Prod.mk.injEq] at h
      rcases h with ⟨rfl, rfl⟩
      exact ⟨by simp, fun _ => ⟨rfl, by decide⟩⟩
    | multiple =>
      rw [hg] at h
      simp at h
    | found rt =>
      rw [hg] at h
      by_cases hv : rt.is_valid now
      · simp only [hv, Bool.not_true, Bool.false_eq_true, if_false,
          Option.some.injEq, Prod.mk.injEq] at h
        rcases h with ⟨rfl, rfl⟩
        exact ⟨by simp, by simp⟩
      · simp only [Bool.not_eq_true] at hv
        simp only [hv, Bool.not_false, if_true] at h
        by_cases hu2 : rt.is_used <;>
          · simp only [hu2, if_true, if_false, Bool.false_eq_true,
              Option.some.injEq, Prod.mk.injEq] at h
            rcases h with ⟨rfl, rfl⟩
            exact ⟨by simp, fun _ => ⟨rfl, by decide⟩⟩

def w_fail_result : VerifyResult User := ⟨false, "Invalid verification token.", none⟩

def w_fail_result_reset : VerifyResult PasswordResetToken :=
  ⟨false, "Invalid password reset token.", none⟩

/-- Witness for C10: an unknown token value yields a failure tuple whose
payload is None and whose message is non-empty, for both kinds. -/
theorem C10_success_iff_payload_witness :
    ((w_fail_result.success = true ↔ w_fail_result.payload ≠ none) ∧
      (w_fail_result.success = false →
        w_fail_result.payload = none ∧ ¬w_fail_result.message = "")) ∧
    ((w_fail_result_reset.success = true ↔ w_fail_result_reset.payload ≠ none) ∧
      (w_fail_result_reset.success = false →
        w_fail_result_reset.payload = none ∧ ¬w_fail_result_reset.message = "")) :=
  ⟨C10_success_iff_payload.1 "nope" 0 w_store w_fail_result w_store rfl,
   C10_success_iff_payload.2 "nope" 0 w_store w_fail_result_reset w_store rfl⟩

end LearnBox
